import Mathlib

/-!
Verification development for the stock-and-crypto tracker's data-aggregation
and caching layer.  The Python services (`services/cache_service.py`,
`services/crypto_service.py`, `services/stock_service.py`, `config.py`) are
shallowly embedded: numeric values become `ℚ`, Python `None`/missing JSON keys
become `Option`, wall-clock time and upstream HTTP interactions become explicit
parameters, and the mutable per-service cache dictionaries become explicit
state values threaded through the functions.  Each function additionally
reports (as a `Bool` in its result) whether it performed an upstream fetch,
which models the observable network call made on the non-cache-hit paths.
-/

/-! ## Python numeric primitives -/

/-- Python `round` ties-to-even integer rounding, idealized over `ℚ`:
round half to even. -/
def roundHalfEven (x : ℚ) : ℤ :=
  let f := ⌊x⌋
  if x - f < 1 / 2 then f
  else if 1 / 2 < x - f then f + 1
  else if f % 2 = 0 then f else f + 1

/-- Python `round(x, ndigits)` over `ℚ`. -/
def pyRound (x : ℚ) (ndigits : ℕ) : ℚ :=
  (roundHalfEven (x * 10 ^ ndigits) : ℚ) / 10 ^ ndigits

/-- Python `round(x, 2)`. -/
def pyRound2 (x : ℚ) : ℚ := pyRound x 2

/-- Python `round(x, 4)`. -/
def pyRound4 (x : ℚ) : ℚ := pyRound x 4

/-- Python `int(x)`: truncation toward zero. -/
def pyInt (x : ℚ) : ℤ := if 0 ≤ x then ⌊x⌋ else ⌈x⌉

/-- `q` is representable with at most `nd` decimal digits after the point
(i.e. `q * 10^nd` is an integer).  "Rounded to exactly `nd` decimal places"
in the specification means membership in this set. -/
def hasAtMostDecimals (q : ℚ) (nd : ℕ) : Prop := (q * 10 ^ nd).den = 1

instance (q : ℚ) (nd : ℕ) : Decidable (hasAtMostDecimals q nd) := by
  unfold hasAtMostDecimals; infer_instance

/-- Python `str.upper()` (ASCII, as used on exchange codes and tickers),
computed characterwise over the string's character list. -/
def pyUpper (s : String) : String := ⟨s.data.map Char.toUpper⟩

/-- Python `a or b` on two optional numbers: the first operand wins when it is
truthy (present and nonzero), otherwise the second is used as-is. -/
def pyOrQ (a b : Option ℚ) : Option ℚ :=
  match a with
  | some x => if x = 0 then b else some x
  | none => b

/-- Python `a or b` on an optional string versus a string default:
an absent or empty first operand yields the second. -/
def pyOrS (a : Option String) (b : String) : String :=
  match a with
  | some s => if s = "" then b else s
  | none => b

/-! ## config.py -/

namespace Config

/-- `Config.CACHE_DURATION = 3600` (seconds). -/
def CACHE_DURATION : ℚ := 3600

/-- `Config.MAX_TOP_STOCKS = 100`. -/
def MAX_TOP_STOCKS : ℤ := 100

/-- `Config.DEFAULT_TOP_STOCKS_LIST` (static fallback list). -/
def DEFAULT_TOP_STOCKS_LIST : List String :=
  ["NVDA", "AAPL", "GOOG", "MSFT", "AMZN", "META", "AVGO", "TSLA", "TSM", "BRK-B"]

/-- `Config.US_EXCHANGES`. -/
def US_EXCHANGES : List String :=
  ["NYQ", "NAS", "NMS", "ASE", "PCX", "BATS", "ARCX"]

/-- `Config.EU_EXCHANGES`. -/
def EU_EXCHANGES : List String :=
  ["AMS", "XETRA", "FRA", "PAR", "LSE", "SWX", "VIE", "MIL", "BRU", "STO", "CPH", "HEL", "MCE"]

/-- `Config.MAX_TOP_CRYPTOS = 100`. -/
def MAX_TOP_CRYPTOS : ℤ := 100

/-- `Config.CRYPTO_CACHE_DURATION = 120` (seconds). -/
def CRYPTO_CACHE_DURATION : ℚ := 120

end Config

/-- `top = min(max(top, 1), maxTop)` — the clamping applied by both
popular-list operations before any cache check. -/
def clampTop (top maxTop : ℤ) : ℤ := min (max top 1) maxTop

/-! ## services/cache_service.py — CacheService -/

/-- The `_popular_stocks_cache` dictionary.  The initial Python value is
`{'data': None, 'timestamp': 0}`; `None` and the empty list are both falsy in
the cache-hit test, so `data` is modelled as a plain list with `[]` standing
for "no cached data". -/
structure StockCache where
  data : List String
  timestamp : ℚ
deriving DecidableEq, Repr

/-- Outcome of the upstream `requests.get(Config.MARKET_CAP_URL, ...)` call:
either an exception was raised (timeout, connection error, ...) or an HTTP
response arrived with a status code and a parsed list of `.company-code`
element texts. -/
inductive StockFetch where
  | exn : StockFetch
  | resp (status : ℤ) (elements : List String) : StockFetch
deriving DecidableEq, Repr

/-- Result of `get_or_fetch_popular_stocks`: a symbol list, or an error
response (`jsonify({'error': ...}), code`). -/
inductive StocksResult where
  | ok (symbols : List String) : StocksResult
  | err (status : ℕ) : StocksResult
deriving DecidableEq, Repr

/-- The cache-hit condition of `CacheService.get_or_fetch_popular_stocks`
(line 25): data truthy AND `time.time() - timestamp < CACHE_DURATION` AND
`len(data) >= top`.  `top` here is the already-clamped count. -/
def stockCacheHit (top : ℤ) (now : ℚ) (st : StockCache) : Prop :=
  st.data ≠ [] ∧ now - st.timestamp < Config.CACHE_DURATION ∧ top ≤ (st.data.length : ℤ)

instance (top : ℤ) (now : ℚ) (st : StockCache) : Decidable (stockCacheHit top now st) := by
  unfold stockCacheHit; infer_instance

/-- `CacheService.get_or_fetch_popular_stocks(top)`.  `now` is the value of
`time.time()`, `fetch` the outcome the upstream call would produce, `st` the
current cache state.  Returns the Python return value, the new cache state,
and whether the upstream call was performed. -/
def get_or_fetch_popular_stocks (top : ℤ) (now : ℚ) (fetch : StockFetch)
    (st : StockCache) : StocksResult × StockCache × Bool :=
  if stockCacheHit (clampTop top Config.MAX_TOP_STOCKS) now st then
    (.ok (st.data.take (clampTop top Config.MAX_TOP_STOCKS).toNat), st, false)
  else
    match fetch with
    | .resp status elements =>
      if status ≠ 200 then (.err 500, st, true)
      else if elements = [] then
        -- `if elements:` fails: "No symbols found" error, 404
        (.err 404, st, true)
      else
        -- `for element in elements[:top]: ... if symbol: symbols.append(symbol)`
        let symbols := (elements.take (clampTop top Config.MAX_TOP_STOCKS).toNat).filter
          (fun s => s ≠ "")
        (.ok symbols, ⟨symbols, now⟩, true)
    | .exn =>
      if Config.DEFAULT_TOP_STOCKS_LIST ≠ [] then
        (.ok Config.DEFAULT_TOP_STOCKS_LIST, ⟨Config.DEFAULT_TOP_STOCKS_LIST, now⟩, true)
      else (.err 500, st, true)

/-! ## services/crypto_service.py — raw payloads and records -/

/-- One element of the `/coins/markets` JSON array, restricted to the keys the
service reads.  `none` models a missing key. -/
structure RawCoin where
  id : Option String := none
  symbol : Option String := none
  name : Option String := none
  current_price : Option ℚ := none
  price_change_24h : Option ℚ := none
  price_change_percentage_24h : Option ℚ := none
  price_change_percentage_7d_in_currency : Option ℚ := none
  market_cap : Option ℚ := none
  total_volume : Option ℚ := none
  image : Option String := none
  market_cap_rank : Option ℤ := none
  high_24h : Option ℚ := none
  low_24h : Option ℚ := none
  circulating_supply : Option ℚ := none
  total_supply : Option ℚ := none
  ath : Option ℚ := none
  ath_change_percentage : Option ℚ := none
deriving DecidableEq, Repr

/-- The record built for each coin by `get_top_cryptos` (lines 64–82). -/
structure CryptoRecord where
  id : Option String := none
  symbol : String := ""
  name : Option String := none
  price : ℚ := 0
  change : ℚ := 0
  changePercent : ℚ := 0
  changePercent7d : ℚ := 0
  marketCap : ℚ := 0
  volume : ℚ := 0
  image : Option String := none
  rank : Option ℤ := none
  high24h : ℚ := 0
  low24h : ℚ := 0
  circulatingSupply : ℚ := 0
  totalSupply : ℚ := 0
  ath : ℚ := 0
  athChangePercent : ℚ := 0
deriving DecidableEq, Repr

/-- The per-coin normalization in the loop of `get_top_cryptos`.
`coin.get(k, 0) or 0` collapses to `getD 0` under the absent-key model. -/
def normalizeCoin (coin : RawCoin) : CryptoRecord :=
  { id := coin.id
    symbol := pyUpper (coin.symbol.getD "")
    name := coin.name
    price := coin.current_price.getD 0
    change := pyRound2 (coin.price_change_24h.getD 0)
    changePercent := pyRound2 (coin.price_change_percentage_24h.getD 0)
    changePercent7d := pyRound2 (coin.price_change_percentage_7d_in_currency.getD 0)
    marketCap := coin.market_cap.getD 0
    volume := coin.total_volume.getD 0
    image := coin.image
    rank := coin.market_cap_rank
    high24h := coin.high_24h.getD 0
    low24h := coin.low_24h.getD 0
    circulatingSupply := coin.circulating_supply.getD 0
    totalSupply := coin.total_supply.getD 0
    ath := coin.ath.getD 0
    athChangePercent := pyRound2 (coin.ath_change_percentage.getD 0) }

/-- The `_popular_crypto_cache` dictionary, with `[]` for the initial `None`
(both falsy in the hit test). -/
structure CryptoCache where
  data : List CryptoRecord
  timestamp : ℚ
deriving DecidableEq, Repr

/-- The cache-hit condition of `CryptoService.get_top_cryptos` (lines 44–46),
with `top` already clamped. -/
def cryptoCacheHit (top : ℤ) (now : ℚ) (st : CryptoCache) : Prop :=
  st.data ≠ [] ∧ now - st.timestamp < Config.CRYPTO_CACHE_DURATION ∧
    top ≤ (st.data.length : ℤ)

instance (top : ℤ) (now : ℚ) (st : CryptoCache) : Decidable (cryptoCacheHit top now st) := by
  unfold cryptoCacheHit; infer_instance

/-- `CryptoService.get_top_cryptos(top)`.  `fetch` is the value
`_make_request('/coins/markets', params)` would return: `none` for any
normalized failure (timeout, connection error, non-200 status, 429), `some`
of the decoded JSON array on HTTP 200.  Returns the Python return value
(`none` models Python `None`), the new cache state, and whether the upstream
request was made. -/
def get_top_cryptos (top : ℤ) (now : ℚ) (fetch : Option (List RawCoin))
    (st : CryptoCache) : Option (List CryptoRecord) × CryptoCache × Bool :=
  if cryptoCacheHit (clampTop top Config.MAX_TOP_CRYPTOS) now st then
    (some (st.data.take (clampTop top Config.MAX_TOP_CRYPTOS).toNat), st, false)
  else
    match fetch with
    | some coins =>
      if coins ≠ [] then
        -- `if data:` with a truthy (nonempty) array
        let cryptos := coins.map normalizeCoin
        (some cryptos, ⟨cryptos, now⟩, true)
      else if st.data ≠ [] then
        -- fall through to the stale-cache fallback
        (some (st.data.take (clampTop top Config.MAX_TOP_CRYPTOS).toNat), st, true)
      else (none, st, true)
    | none =>
      if st.data ≠ [] then
        (some (st.data.take (clampTop top Config.MAX_TOP_CRYPTOS).toNat), st, true)
      else (none, st, true)

/-! ## services/stock_service.py — StockService.get_stock_data -/

/-- The fields of `yf.Ticker(symbol).info` read by the basic path of
`get_stock_data`.  `none` models a missing key. -/
structure StockInfo where
  regularMarketPrice : Option ℚ := none
  currentPrice : Option ℚ := none
  exchange : Option String := none
  currency : Option String := none
  previousClose : Option ℚ := none
  longName : Option String := none
  volume : Option ℤ := none
  marketCap : Option ℤ := none
  dayHigh : Option ℚ := none
  dayLow : Option ℚ := none
  fiftyTwoWeekHigh : Option ℚ := none
  fiftyTwoWeekLow : Option ℚ := none
deriving DecidableEq, Repr

/-- The basic equity record built at lines 52–66 of `stock_service.py`. -/
structure StockRecord where
  symbol : String := ""
  name : String := ""
  price : ℚ := 0
  change : ℚ := 0
  changePercent : ℚ := 0
  volume : ℤ := 0
  marketCap : ℤ := 0
  market : String := ""
  currency : String := ""
  dayHigh : ℚ := 0
  dayLow : ℚ := 0
  fiftyTwoWeekHigh : ℚ := 0
  fiftyTwoWeekLow : ℚ := 0
deriving DecidableEq, Repr

/-- Market detection (lines 37–46): exchange-code lookup in the two static
tables, yielding the `(market, currency)` pair. -/
def classifyMarket (exchange : String) (currency : Option String) : String × String :=
  if Config.US_EXCHANGES.contains exchange then ("US", "USD")
  else if Config.EU_EXCHANGES.contains exchange then ("EU", currency.getD "EUR")
  else ("OTHER", currency.getD "USD")

/-- `StockService.get_stock_data(symbol)` (basic path, `full_data=False`).
Returns `none` when the info has no truthy current price. -/
def get_stock_data (symbol : String) (info : StockInfo) : Option StockRecord :=
  match pyOrQ info.regularMarketPrice info.currentPrice with
  | none => none
  | some current_price =>
    if current_price = 0 then none
    else
      let exchange := pyUpper (info.exchange.getD "")
      let mc := classifyMarket exchange info.currency
      let previous_close := info.previousClose.getD current_price
      let change := current_price - previous_close
      some
        { symbol := symbol
          name := pyOrS info.longName symbol
          price := pyRound2 current_price
          change := pyRound2 change
          changePercent :=
            pyRound2 (if previous_close ≠ 0 then change / previous_close * 100 else 0)
          volume := info.volume.getD 0
          marketCap := info.marketCap.getD 0
          market := mc.1
          currency := mc.2
          dayHigh := pyRound2 (info.dayHigh.getD 0)
          dayLow := pyRound2 (info.dayLow.getD 0)
          fiftyTwoWeekHigh := pyRound2 (info.fiftyTwoWeekHigh.getD 0)
          fiftyTwoWeekLow := pyRound2 (info.fiftyTwoWeekLow.getD 0) }

/-! ## services/stock_service.py — StockService.get_historical_data -/

/-- One row of the `ticker.history(...)` frame.  A `none` numeric field
models a pandas `NaN` (and `pyRound2` on `Option` propagates it, matching
Python `round` on `nan`). -/
structure EquityBar where
  dt : String := ""
  open_ : Option ℚ := none
  high : Option ℚ := none
  low : Option ℚ := none
  close : Option ℚ := none
  volume : Option ℚ := none
deriving DecidableEq, Repr

/-- One normalized equity history point; absent dictionary keys are `none`
(the line shape carries `price`, the OHLC shape carries the four bar
fields). -/
structure EquityPoint where
  dt : String := ""
  volume : ℤ := 0
  open_ : Option ℚ := none
  high : Option ℚ := none
  low : Option ℚ := none
  close : Option ℚ := none
  price : Option ℚ := none
deriving DecidableEq, Repr

/-- Metadata of an equity historical series (the fields the claims touch). -/
structure EquityMeta where
  symbol : String := ""
  period : String := ""
  interval : String := ""
  currency : String := ""
  ohlc : Bool := false
deriving DecidableEq, Repr

/-- An equity historical series: `{'data': ..., 'metadata': ...}`. -/
structure EquitySeries where
  data : List EquityPoint
  metadata : EquityMeta
deriving DecidableEq, Repr

/-- The per-row normalization in `get_historical_data`'s loop
(lines 121–137). -/
def equityPoint (ohlc : Bool) (row : EquityBar) : EquityPoint :=
  { dt := row.dt
    volume := match row.volume with | some v => pyInt v | none => 0
    open_ := if ohlc then row.open_.map pyRound2 else none
    high := if ohlc then row.high.map pyRound2 else none
    low := if ohlc then row.low.map pyRound2 else none
    close := if ohlc then row.close.map pyRound2 else none
    price := if ohlc then none else row.close.map pyRound2 }

/-- `StockService.get_historical_data(symbol, period, ..., interval, ohlc)`.
`bars` is the (time-ordered) frame the upstream call produced and `currency`
the `ticker.info` currency; `hist.empty` yields `None` (line 117–119).  The
named-period call path is modelled; the start/end path differs only in the
`metadata.period` string. -/
def stock_get_historical_data (symbol period interval : String) (ohlc : Bool)
    (bars : List EquityBar) (currency : String) : Option EquitySeries :=
  if bars = [] then none
  else
    some
      { data := bars.map (equityPoint ohlc)
        metadata :=
          { symbol := pyUpper symbol
            period := period
            interval := interval
            currency := currency
            ohlc := ohlc } }

/-! ## services/crypto_service.py — CryptoService.get_historical_data -/

/-- The `/coins/{id}/market_chart` payload: two positional arrays of
`[timestamp_ms, value]` pairs. -/
structure MarketChart where
  prices : List (ℚ × ℚ) := []
  total_volumes : List (ℚ × ℚ) := []
deriving DecidableEq, Repr

/-- One normalized crypto history point.  The source renders
`datetime.fromtimestamp(timestamp / 1000).isoformat()`; the raw millisecond
timestamp is kept in place of that string. -/
structure CryptoHistPoint where
  timestampMs : ℚ := 0
  price : ℚ := 0
  volume : ℤ := 0
deriving DecidableEq, Repr

/-- Metadata of a crypto historical series. -/
structure CryptoHistMeta where
  id : String := ""
  days : String := ""
  currency : String := ""
deriving DecidableEq, Repr

/-- A crypto historical series: `{'data': ..., 'metadata': ...}`. -/
structure CryptoHistSeries where
  data : List CryptoHistPoint
  metadata : CryptoHistMeta
deriving DecidableEq, Repr

/-- `int(volume) if volume else 0` applied to the positionally selected
volume value. -/
def pointVolume (v : ℚ) : ℤ := if v ≠ 0 then pyInt v else 0

/-- One point of the crypto history loop body (lines 223–232), given the
price pair and the positionally matching volume pair when one exists. -/
def cryptoHistPoint (pp : ℚ × ℚ) (vol : Option (ℚ × ℚ)) : CryptoHistPoint :=
  let volume := match vol with | some v => v.2 | none => 0
  { timestampMs := pp.1
    price := if pp.2 ≠ 0 then pyRound2 pp.2 else 0
    volume := pointVolume volume }

/-- The loop `for i, price_point in enumerate(prices)` with
`volume = volumes[i][1] if i < len(volumes) else 0`, realized by walking the
two arrays positionally in lockstep. -/
def pairPoints : List (ℚ × ℚ) → List (ℚ × ℚ) → List CryptoHistPoint
  | [], _ => []
  | pp :: ps, vols => cryptoHistPoint pp vols.head? :: pairPoints ps vols.tail

/-- `CryptoService.get_historical_data(crypto_id, days)`.  `fetch` is the
`_make_request` outcome: `none` for any normalized failure or a falsy (empty)
response body, `some` of the decoded payload otherwise. -/
def crypto_get_historical_data (crypto_id days : String)
    (fetch : Option MarketChart) : Option CryptoHistSeries :=
  match fetch with
  | none => none
  | some data =>
    some
      { data := pairPoints data.prices data.total_volumes
        metadata := { id := crypto_id, days := days, currency := "USD" } }

/-! ## services/crypto_service.py — get_crypto_data, search, lookup -/

/-- The `/coins/{id}` payload, restricted to the keys the basic path of
`get_crypto_data` reads (nested `market_data ... {'usd': ...}` accesses are
flattened into one optional field each). -/
structure CoinDetailRaw where
  id : Option String := none
  symbol : Option String := none
  name : Option String := none
  current_price_usd : Option ℚ := none
  price_change_24h : Option ℚ := none
  price_change_percentage_24h : Option ℚ := none
  market_cap_usd : Option ℚ := none
  total_volume_usd : Option ℚ := none
  image_large : Option String := none
  market_cap_rank : Option ℤ := none
  high_24h_usd : Option ℚ := none
  low_24h_usd : Option ℚ := none
deriving DecidableEq, Repr

/-- The `basic_data` record of `get_crypto_data` (lines 126–139). -/
structure CryptoBasicRec where
  id : Option String := none
  symbol : String := ""
  name : Option String := none
  price : ℚ := 0
  change : ℚ := 0
  changePercent : ℚ := 0
  marketCap : ℚ := 0
  volume : ℚ := 0
  image : Option String := none
  rank : Option ℤ := none
  high24h : ℚ := 0
  low24h : ℚ := 0
deriving DecidableEq, Repr

/-- `CryptoService.get_crypto_data(crypto_id)` with `full_data=False` (the
path used by `get_crypto_by_symbol`).  `fetch` is the `_make_request`
outcome; a falsy response yields `None`. -/
def get_crypto_data (fetch : Option CoinDetailRaw) : Option CryptoBasicRec :=
  match fetch with
  | none => none
  | some data =>
    let current_price := data.current_price_usd.getD 0
    let price_change_24h := data.price_change_24h.getD 0
    some
      { id := data.id
        symbol := pyUpper (data.symbol.getD "")
        name := data.name
        price := current_price
        change := pyRound2 price_change_24h
        changePercent := pyRound2 (data.price_change_percentage_24h.getD 0)
        marketCap := data.market_cap_usd.getD 0
        volume := data.total_volume_usd.getD 0
        image := data.image_large
        rank := data.market_cap_rank
        high24h := data.high_24h_usd.getD 0
        low24h := data.low_24h_usd.getD 0 }

/-- One element of the `/search` payload's `coins` array. -/
structure RawSearchCoin where
  id : Option String := none
  symbol : Option String := none
  name : Option String := none
  large : Option String := none
  market_cap_rank : Option ℤ := none
deriving DecidableEq, Repr

/-- One result built by `search_crypto` (lines 184–190). -/
structure SearchResult where
  id : Option String := none
  symbol : String := ""
  name : Option String := none
  image : Option String := none
  rank : Option ℤ := none
deriving DecidableEq, Repr

/-- `CryptoService.search_crypto(query)`.  `fetch` is `none` when the request
failed or the response lacks a `coins` key; otherwise the `coins` array.
Results are limited to the first 10. -/
def search_crypto (fetch : Option (List RawSearchCoin)) : List SearchResult :=
  match fetch with
  | none => []
  | some coins =>
    (coins.take 10).map fun c =>
      { id := c.id
        symbol := pyUpper (c.symbol.getD "")
        name := c.name
        image := c.large
        rank := c.market_cap_rank }

/-- `CryptoService.get_crypto_by_symbol(symbol)` (lines 297–309).
`detailResponse` maps a coin id to the `/coins/{id}` response the detail
fetch would receive; `searchFetch` is the `/search` outcome. -/
def get_crypto_by_symbol (detailResponse : Option String → Option CoinDetailRaw)
    (searchFetch : Option (List RawSearchCoin)) (symbol : String) :
    Option CryptoBasicRec :=
  let search_results := search_crypto searchFetch
  match search_results with
  | [] => none
  | first :: _ =>
    match search_results.find? (fun r => pyUpper r.symbol == pyUpper symbol) with
    | some r => get_crypto_data (detailResponse r.id)
    | none => get_crypto_data (detailResponse first.id)

/-! ## services/stock_service.py — get_dividend_history entry -/

/-- One dividend entry built at lines 292–297 of `stock_service.py`, from a
payment's date string, per-share amount, year and month.  The source stores
the quarter as the string `"Q<n>"`; the number `n = (month - 1) // 3 + 1` is
kept. -/
structure DividendRec where
  date : String := ""
  amount : ℚ := 0
  year : ℤ := 0
  quarter : ℕ := 0
deriving DecidableEq, Repr

/-- The dividend-entry normalization: `'amount': round(float(amount), 4)`. -/
def dividend_entry (date : String) (amount : ℚ) (year : ℤ) (month : ℕ) : DividendRec :=
  { date := date
    amount := pyRound4 amount
    year := year
    quarter := (month - 1) / 3 + 1 }

/-! ## General lemmas -/

/-- `pyRound` really produces a value with at most `nd` decimal digits. -/
theorem pyRound_hasAtMostDecimals (x : ℚ) (nd : ℕ) :
    hasAtMostDecimals (pyRound x nd) nd := by
  unfold hasAtMostDecimals pyRound
  rw [div_mul_cancel₀]
  · exact Rat.den_intCast _
  · positivity

/-- An integer-valued rational has at most `nd` decimal digits. -/
theorem intCast_hasAtMostDecimals (n : ℤ) (nd : ℕ) :
    hasAtMostDecimals (n : ℚ) nd := by
  unfold hasAtMostDecimals
  rw [show ((n : ℚ) * 10 ^ nd) = ((n * 10 ^ nd : ℤ) : ℚ) by push_cast; ring]
  exact Rat.den_intCast _

/-- `clampTop` is idempotent for any bound of at least 1. -/
theorem clampTop_idem (t m : ℤ) (hm : 1 ≤ m) :
    clampTop (clampTop t m) m = clampTop t m := by
  simp only [clampTop, min_def, max_def]
  split_ifs <;> omega

/-! ## Cache behaviour lemmas -/

/-- Cache hit path of `get_or_fetch_popular_stocks`: no fetch, state kept,
clamped-prefix answer. -/
theorem stocks_hit_eq (top : ℤ) (now : ℚ) (fetch : StockFetch) (st : StockCache)
    (h : stockCacheHit (clampTop top Config.MAX_TOP_STOCKS) now st) :
    get_or_fetch_popular_stocks top now fetch st
      = (.ok (st.data.take (clampTop top Config.MAX_TOP_STOCKS).toNat), st, false) := by
  unfold get_or_fetch_popular_stocks
  rw [if_pos h]

/-- Exception path of `get_or_fetch_popular_stocks` on a cache miss: the
static fallback list is installed and returned. -/
theorem stocks_exn_eq (top : ℤ) (now : ℚ) (st : StockCache)
    (h : ¬ stockCacheHit (clampTop top Config.MAX_TOP_STOCKS) now st) :
    get_or_fetch_popular_stocks top now .exn st
      = (.ok Config.DEFAULT_TOP_STOCKS_LIST, ⟨Config.DEFAULT_TOP_STOCKS_LIST, now⟩, true) := by
  unfold get_or_fetch_popular_stocks
  rw [if_neg h]
  show (if Config.DEFAULT_TOP_STOCKS_LIST ≠ [] then _ else _) = _
  rw [if_pos (by decide : Config.DEFAULT_TOP_STOCKS_LIST ≠ [])]

/-- Non-200 response path of `get_or_fetch_popular_stocks` on a cache miss:
an error is returned and the cache is left untouched. -/
theorem stocks_non200_eq (top : ℤ) (now : ℚ) (st : StockCache) (status : ℤ)
    (elements : List String)
    (h : ¬ stockCacheHit (clampTop top Config.MAX_TOP_STOCKS) now st)
    (hs : status ≠ 200) :
    get_or_fetch_popular_stocks top now (.resp status elements) st
      = (.err 500, st, true) := by
  unfold get_or_fetch_popular_stocks
  rw [if_neg h]
  show (if status ≠ 200 then _ else _) = _
  rw [if_pos hs]

/-- Successful fetch path of `get_or_fetch_popular_stocks` on a cache miss. -/
theorem stocks_success_eq (top : ℤ) (now : ℚ) (st : StockCache)
    (elements : List String)
    (h : ¬ stockCacheHit (clampTop top Config.MAX_TOP_STOCKS) now st)
    (he : elements ≠ []) :
    get_or_fetch_popular_stocks top now (.resp 200 elements) st
      = (.ok ((elements.take (clampTop top Config.MAX_TOP_STOCKS).toNat).filter
            (fun s => s ≠ "")),
         ⟨(elements.take (clampTop top Config.MAX_TOP_STOCKS).toNat).filter
            (fun s => s ≠ ""), now⟩, true) := by
  unfold get_or_fetch_popular_stocks
  rw [if_neg h]
  show (if (200 : ℤ) ≠ 200 then _ else _) = _
  rw [if_neg (by decide : ¬ (200 : ℤ) ≠ 200), if_neg he]

/-- On a cache miss the stock operation always performs the upstream call,
whatever its outcome. -/
theorem stocks_fetched_of_miss (top : ℤ) (now : ℚ) (fetch : StockFetch)
    (st : StockCache)
    (h : ¬ stockCacheHit (clampTop top Config.MAX_TOP_STOCKS) now st) :
    (get_or_fetch_popular_stocks top now fetch st).2.2 = true := by
  unfold get_or_fetch_popular_stocks
  rw [if_neg h]
  cases fetch with
  | exn =>
    show ((if Config.DEFAULT_TOP_STOCKS_LIST ≠ [] then _ else _ :
      StocksResult × StockCache × Bool)).2.2 = _
    split_ifs <;> rfl
  | resp status elements =>
    show ((if status ≠ 200 then _ else _ : StocksResult × StockCache × Bool)).2.2 = _
    split_ifs <;> rfl

/-- Cache hit path of `get_top_cryptos`. -/
theorem cryptos_hit_eq (top : ℤ) (now : ℚ) (fetch : Option (List RawCoin))
    (st : CryptoCache)
    (h : cryptoCacheHit (clampTop top Config.MAX_TOP_CRYPTOS) now st) :
    get_top_cryptos top now fetch st
      = (some (st.data.take (clampTop top Config.MAX_TOP_CRYPTOS).toNat), st, false) := by
  unfold get_top_cryptos
  rw [if_pos h]

/-- Successful fetch path of `get_top_cryptos` on a cache miss: the fresh
normalized list is cached wholesale and returned. -/
theorem cryptos_success_eq (top : ℤ) (now : ℚ) (coins : List RawCoin)
    (st : CryptoCache)
    (h : ¬ cryptoCacheHit (clampTop top Config.MAX_TOP_CRYPTOS) now st)
    (hc : coins ≠ []) :
    get_top_cryptos top now (some coins) st
      = (some (coins.map normalizeCoin), ⟨coins.map normalizeCoin, now⟩, true) := by
  unfold get_top_cryptos
  rw [if_neg h]
  show (if coins ≠ [] then _ else _) = _
  rw [if_pos hc]

/-- Failed fetch (`None` from `_make_request`) on a cache miss with a stale
entry: the stale prefix is returned and the cache is untouched. -/
theorem cryptos_stale_none_eq (top : ℤ) (now : ℚ) (st : CryptoCache)
    (h : ¬ cryptoCacheHit (clampTop top Config.MAX_TOP_CRYPTOS) now st)
    (hd : st.data ≠ []) :
    get_top_cryptos top now none st
      = (some (st.data.take (clampTop top Config.MAX_TOP_CRYPTOS).toNat), st, true) := by
  unfold get_top_cryptos
  rw [if_neg h]
  show (if st.data ≠ [] then _ else _) = _
  rw [if_pos hd]

/-- A truthy-but-empty fetch result (`[]`) behaves like a failed fetch:
stale fallback. -/
theorem cryptos_stale_empty_eq (top : ℤ) (now : ℚ) (st : CryptoCache)
    (h : ¬ cryptoCacheHit (clampTop top Config.MAX_TOP_CRYPTOS) now st)
    (hd : st.data ≠ []) :
    get_top_cryptos top now (some []) st
      = (some (st.data.take (clampTop top Config.MAX_TOP_CRYPTOS).toNat), st, true) := by
  unfold get_top_cryptos
  rw [if_neg h]
  show (if ([] : List RawCoin) ≠ [] then _ else _) = _
  rw [if_neg (by simp), if_pos hd]

/-- On a cache miss the crypto operation always performs the upstream call. -/
theorem cryptos_fetched_of_miss (top : ℤ) (now : ℚ) (fetch : Option (List RawCoin))
    (st : CryptoCache)
    (h : ¬ cryptoCacheHit (clampTop top Config.MAX_TOP_CRYPTOS) now st) :
    (get_top_cryptos top now fetch st).2.2 = true := by
  unfold get_top_cryptos
  rw [if_neg h]
  cases fetch with
  | none =>
    show ((if st.data ≠ [] then _ else _ :
      Option (List CryptoRecord) × CryptoCache × Bool)).2.2 = _
    split_ifs <;> rfl
  | some coins =>
    show ((if coins ≠ [] then _ else _ :
      Option (List CryptoRecord) × CryptoCache × Bool)).2.2 = _
    split_ifs <;> rfl

/-- Sample cached crypto record used in concrete cache scenarios. -/
def sampleCrypto1 : CryptoRecord := { symbol := "BTC", price := 50000 }

/-- Second sample cached crypto record. -/
def sampleCrypto2 : CryptoRecord := { symbol := "ETH", price := 3000 }

/-- C1: the claim states that on a cache miss, ANY normalized fetch failure
(timeout, connection error, non-200 status, HTTP 429) installs and returns
the configured static fallback list.  This is FALSE for the non-200 /
HTTP 429 failures: with an empty cache, a configured (nonempty) fallback
list, and an HTTP 429 response, `get_or_fetch_popular_stocks` returns the
error response and leaves the cache untouched instead of installing and
returning the fallback list. -/
theorem C1_counterexample :
    get_or_fetch_popular_stocks 10 0 (.resp 429 []) ⟨[], 0⟩ = (.err 500, ⟨[], 0⟩, true)
    ∧ Config.DEFAULT_TOP_STOCKS_LIST ≠ []
    ∧ (StocksResult.err 500) ≠ .ok Config.DEFAULT_TOP_STOCKS_LIST :=
  ⟨stocks_non200_eq 10 0 ⟨[], 0⟩ 429 [] (by decide) (by decide), by decide, by decide⟩

/-- C1 (amended): on a cache miss, only a RAISED exception from the upstream
call (timeout, connection error) makes `get_or_fetch_popular_stocks` install
the static fallback list as the cache entry (value plus fresh timestamp) and
return it; a non-200 HTTP status (including 429) instead returns a `Failure`
(error 500) and leaves the cache unchanged. -/
theorem C1_fallback_on_exception (top : ℤ) (now : ℚ) (st : StockCache)
    (h : ¬ stockCacheHit (clampTop top Config.MAX_TOP_STOCKS) now st) :
    get_or_fetch_popular_stocks top now .exn st
      = (.ok Config.DEFAULT_TOP_STOCKS_LIST, ⟨Config.DEFAULT_TOP_STOCKS_LIST, now⟩, true)
    ∧ ∀ (status : ℤ) (elements : List String), status ≠ 200 →
        get_or_fetch_popular_stocks top now (.resp status elements) st
          = (.err 500, st, true) :=
  ⟨stocks_exn_eq top now st h,
   fun status elements hs => stocks_non200_eq top now st status elements h hs⟩

/-- C1 witness: concrete instantiation of `C1_fallback_on_exception` at an
empty cache. -/
theorem C1_witness :
    ¬ stockCacheHit (clampTop 10 Config.MAX_TOP_STOCKS) 0 ⟨[], 0⟩
    ∧ get_or_fetch_popular_stocks 10 0 .exn ⟨[], 0⟩
        = (.ok Config.DEFAULT_TOP_STOCKS_LIST, ⟨Config.DEFAULT_TOP_STOCKS_LIST, 0⟩, true)
    ∧ get_or_fetch_popular_stocks 10 0 (.resp 500 ["AAA"]) ⟨[], 0⟩
        = (.err 500, ⟨[], 0⟩, true) :=
  ⟨by decide,
   (C1_fallback_on_exception 10 0 ⟨[], 0⟩ (by decide)).1,
   (C1_fallback_on_exception 10 0 ⟨[], 0⟩ (by decide)).2 500 ["AAA"] (by decide)⟩

/-- C2: the claim states that on any popular-list fetch failure with a prior
cache entry (regardless of age), the prior entry's first `N` items are
returned.  FALSE for equities: with an expired cache holding
`["NVDA","AAPL","GOOG"]` and an exception-path fetch failure, the operation
returns the 10-element static fallback list (and overwrites the cache with
it), not the prior entry's first 3 items. -/
theorem C2_counterexample :
    get_or_fetch_popular_stocks 3 5000 .exn ⟨["NVDA", "AAPL", "GOOG"], 0⟩
      = (.ok Config.DEFAULT_TOP_STOCKS_LIST, ⟨Config.DEFAULT_TOP_STOCKS_LIST, 5000⟩, true)
    ∧ Config.DEFAULT_TOP_STOCKS_LIST ≠ (["NVDA", "AAPL", "GOOG"] : List String).take 3 :=
  ⟨stocks_exn_eq 3 5000 ⟨["NVDA", "AAPL", "GOOG"], 0⟩
     (fun h => absurd h.2.1 (by with_unfolding_all decide)), by decide⟩

/-- C2 (amended): the stale-fallback property holds for the crypto popular
list only: on a cache miss with a failed fetch (`None` or an empty array)
and a nonempty prior entry, `get_top_cryptos` returns the prior entry's
first clamped-`N` items unchanged and leaves the cache untouched.  For
equities the prior entry is never served on failure: an exception-path
failure returns the configured static fallback list, and a non-200 response
returns a `Failure` with the cache unchanged. -/
theorem C2_stale_fallback :
    (∀ (top : ℤ) (now : ℚ) (st : CryptoCache),
      ¬ cryptoCacheHit (clampTop top Config.MAX_TOP_CRYPTOS) now st → st.data ≠ [] →
        get_top_cryptos top now none st
          = (some (st.data.take (clampTop top Config.MAX_TOP_CRYPTOS).toNat), st, true)
        ∧ get_top_cryptos top now (some []) st
          = (some (st.data.take (clampTop top Config.MAX_TOP_CRYPTOS).toNat), st, true))
    ∧ (∀ (top : ℤ) (now : ℚ) (st : StockCache),
      ¬ stockCacheHit (clampTop top Config.MAX_TOP_STOCKS) now st →
        get_or_fetch_popular_stocks top now .exn st
          = (.ok Config.DEFAULT_TOP_STOCKS_LIST, ⟨Config.DEFAULT_TOP_STOCKS_LIST, now⟩, true)
        ∧ ∀ (status : ℤ) (elements : List String), status ≠ 200 →
            get_or_fetch_popular_stocks top now (.resp status elements) st
              = (.err 500, st, true)) :=
  ⟨fun top now st h hd =>
    ⟨cryptos_stale_none_eq top now st h hd, cryptos_stale_empty_eq top now st h hd⟩,
   fun top now st h =>
    ⟨stocks_exn_eq top now st h,
     fun status elements hs => stocks_non200_eq top now st status elements h hs⟩⟩

/-- C2 witness: concrete instantiation of `C2_stale_fallback` on an expired
crypto cache entry. -/
theorem C2_witness :
    ¬ cryptoCacheHit (clampTop 2 Config.MAX_TOP_CRYPTOS) 500 ⟨[sampleCrypto1], 0⟩
    ∧ ([sampleCrypto1] : List CryptoRecord) ≠ []
    ∧ get_top_cryptos 2 500 none ⟨[sampleCrypto1], 0⟩
        = (some (([sampleCrypto1] : List CryptoRecord).take
            (clampTop 2 Config.MAX_TOP_CRYPTOS).toNat), ⟨[sampleCrypto1], 0⟩, true) :=
  ⟨fun h => absurd h.2.1 (by with_unfolding_all decide), by decide,
   ((C2_stale_fallback.1) 2 500 ⟨[sampleCrypto1], 0⟩
      (fun h => absurd h.2.1 (by with_unfolding_all decide)) (by decide)).1⟩

/-- C5: for every popular-list read where the cached entry is nonempty, its
age is strictly below the configured TTL, and the cached list holds at least
the (clamped) requested count, the operation performs no upstream fetch,
leaves the cache entry unchanged, and returns exactly the first
requested-count items of the cached list (its stable rank-ordered head
slice); in particular a cache holding `["NVDA","AAPL","GOOG"]` fetched at
time 0 with TTL 3600 serves a top-2 request at time 1 as `["NVDA","AAPL"]`
without any upstream call, whatever the upstream would have answered. -/
theorem C5_fresh_cache_hit :
    (∀ (top : ℤ) (now : ℚ) (fetch : StockFetch) (st : StockCache),
      st.data ≠ [] → now - st.timestamp < Config.CACHE_DURATION →
      clampTop top Config.MAX_TOP_STOCKS ≤ (st.data.length : ℤ) →
      get_or_fetch_popular_stocks top now fetch st
        = (.ok (st.data.take (clampTop top Config.MAX_TOP_STOCKS).toNat), st, false))
    ∧ (∀ (top : ℤ) (now : ℚ) (fetch : Option (List RawCoin)) (st : CryptoCache),
      st.data ≠ [] → now - st.timestamp < Config.CRYPTO_CACHE_DURATION →
      clampTop top Config.MAX_TOP_CRYPTOS ≤ (st.data.length : ℤ) →
      get_top_cryptos top now fetch st
        = (some (st.data.take (clampTop top Config.MAX_TOP_CRYPTOS).toNat), st, false))
    ∧ (∀ fetch : StockFetch,
      get_or_fetch_popular_stocks 2 1 fetch ⟨["NVDA", "AAPL", "GOOG"], 0⟩
        = (.ok ["NVDA", "AAPL"], ⟨["NVDA", "AAPL", "GOOG"], 0⟩, false)) :=
  ⟨fun top now fetch st h1 h2 h3 => stocks_hit_eq top now fetch st ⟨h1, h2, h3⟩,
   fun top now fetch st h1 h2 h3 => cryptos_hit_eq top now fetch st ⟨h1, h2, h3⟩,
   fun fetch =>
     (stocks_hit_eq 2 1 fetch ⟨["NVDA", "AAPL", "GOOG"], 0⟩
       ⟨by decide, by with_unfolding_all decide, by decide⟩).trans (by decide)⟩

/-- C5 witness: concrete instantiation of `C5_fresh_cache_hit` on a fresh,
sufficiently long equity cache. -/
theorem C5_witness :
    (["NVDA", "AAPL", "GOOG"] : List String) ≠ []
    ∧ (1 : ℚ) - (0 : ℚ) < Config.CACHE_DURATION
    ∧ clampTop 2 Config.MAX_TOP_STOCKS ≤ ((["NVDA", "AAPL", "GOOG"] : List String).length : ℤ)
    ∧ get_or_fetch_popular_stocks 2 1 .exn ⟨["NVDA", "AAPL", "GOOG"], 0⟩
        = (.ok ((["NVDA", "AAPL", "GOOG"] : List String).take
            (clampTop 2 Config.MAX_TOP_STOCKS).toNat), ⟨["NVDA", "AAPL", "GOOG"], 0⟩, false) :=
  ⟨by decide, by with_unfolding_all decide, by decide,
   C5_fresh_cache_hit.1 2 1 .exn ⟨["NVDA", "AAPL", "GOOG"], 0⟩ (by decide)
     (by with_unfolding_all decide) (by decide)⟩

/-- C6: the claim additionally asserts that a fresh-but-too-short cache
entry is "never served as the answer".  FALSE for the crypto list: with a
fresh (age 1 < TTL 120) cache holding 2 records and a request for 5, the
triggered upstream fetch fails and `get_top_cryptos` serves exactly the
fresh-but-too-short cached entry as the answer. -/
theorem C6_counterexample :
    get_top_cryptos 5 1 none ⟨[sampleCrypto1, sampleCrypto2], 0⟩
      = (some [sampleCrypto1, sampleCrypto2], ⟨[sampleCrypto1, sampleCrypto2], 0⟩, true)
    ∧ (1 : ℚ) - (0 : ℚ) < Config.CRYPTO_CACHE_DURATION :=
  ⟨(cryptos_stale_none_eq 5 1 ⟨[sampleCrypto1, sampleCrypto2], 0⟩
      (fun h => absurd h.2.2 (by decide)) (by decide)).trans (by decide),
   by with_unfolding_all decide⟩

/-- C6 (amended): a cached popular list of length `L` serving a (clamped)
request for `N > L` items always triggers the upstream fetch, even when the
entry is fresh; on a successful fetch the answer and the new cache entry
come from the fresh upstream data, not from the short cached entry.  (When
the triggered fetch fails, the crypto service may still serve the too-short
stale entry via its stale-fallback path.) -/
theorem C6_short_cache_refetch :
    (∀ (top : ℤ) (now : ℚ) (fetch : StockFetch) (st : StockCache),
      (st.data.length : ℤ) < clampTop top Config.MAX_TOP_STOCKS →
      (get_or_fetch_popular_stocks top now fetch st).2.2 = true)
    ∧ (∀ (top : ℤ) (now : ℚ) (fetch : Option (List RawCoin)) (st : CryptoCache),
      (st.data.length : ℤ) < clampTop top Config.MAX_TOP_CRYPTOS →
      (get_top_cryptos top now fetch st).2.2 = true)
    ∧ (∀ (top : ℤ) (now : ℚ) (st : CryptoCache) (coins : List RawCoin),
      (st.data.length : ℤ) < clampTop top Config.MAX_TOP_CRYPTOS → coins ≠ [] →
      get_top_cryptos top now (some coins) st
        = (some (coins.map normalizeCoin), ⟨coins.map normalizeCoin, now⟩, true))
    ∧ (∀ (top : ℤ) (now : ℚ) (st : StockCache) (elements : List String),
      (st.data.length : ℤ) < clampTop top Config.MAX_TOP_STOCKS → elements ≠ [] →
      get_or_fetch_popular_stocks top now (.resp 200 elements) st
        = (.ok ((elements.take (clampTop top Config.MAX_TOP_STOCKS).toNat).filter
              (fun s => s ≠ "")),
           ⟨(elements.take (clampTop top Config.MAX_TOP_STOCKS).toNat).filter
              (fun s => s ≠ ""), now⟩, true)) :=
  ⟨fun top now fetch st hlen =>
     stocks_fetched_of_miss top now fetch st (fun h => absurd h.2.2 (not_le.mpr hlen)),
   fun top now fetch st hlen =>
     cryptos_fetched_of_miss top now fetch st (fun h => absurd h.2.2 (not_le.mpr hlen)),
   fun top now st coins hlen hc =>
     cryptos_success_eq top now coins st (fun h => absurd h.2.2 (not_le.mpr hlen)) hc,
   fun top now st elements hlen he =>
     stocks_success_eq top now st elements (fun h => absurd h.2.2 (not_le.mpr hlen)) he⟩

/-- C6 witness: concrete instantiation of `C6_short_cache_refetch` on a
fresh one-element crypto cache asked for 5 items. -/
theorem C6_witness :
    ((([sampleCrypto1] : List CryptoRecord).length : ℤ) < clampTop 5 Config.MAX_TOP_CRYPTOS)
    ∧ (get_top_cryptos 5 1 none ⟨[sampleCrypto1], 0⟩).2.2 = true :=
  ⟨by decide, C6_short_cache_refetch.2.1 5 1 none ⟨[sampleCrypto1], 0⟩ (by decide)⟩

/-- C10: both popular-list operations clamp the requested count before any
cache check or fetch: each behaves exactly as if `top` were replaced by
`min(max(top, 1), 100)`, so a zero-or-negative request is served as a
request for 1 item and a request above 100 as a request for 100 items. -/
theorem C10_clamping :
    (∀ (top : ℤ) (now : ℚ) (fetch : StockFetch) (st : StockCache),
      get_or_fetch_popular_stocks top now fetch st
        = get_or_fetch_popular_stocks (clampTop top Config.MAX_TOP_STOCKS) now fetch st)
    ∧ (∀ (top : ℤ) (now : ℚ) (fetch : Option (List RawCoin)) (st : CryptoCache),
      get_top_cryptos top now fetch st
        = get_top_cryptos (clampTop top Config.MAX_TOP_CRYPTOS) now fetch st)
    ∧ (∀ top : ℤ, top ≤ 0 →
        clampTop top Config.MAX_TOP_STOCKS = 1 ∧ clampTop top Config.MAX_TOP_CRYPTOS = 1)
    ∧ (∀ top : ℤ, 100 ≤ top →
        clampTop top Config.MAX_TOP_STOCKS = 100 ∧ clampTop top Config.MAX_TOP_CRYPTOS = 100) := by
  refine ⟨fun top now fetch st => ?_, fun top now fetch st => ?_,
    fun top h => ?_, fun top h => ?_⟩
  · unfold get_or_fetch_popular_stocks
    rw [clampTop_idem top Config.MAX_TOP_STOCKS (by decide)]
  · unfold get_top_cryptos
    rw [clampTop_idem top Config.MAX_TOP_CRYPTOS (by decide)]
  · constructor <;>
      (simp only [clampTop, Config.MAX_TOP_STOCKS, Config.MAX_TOP_CRYPTOS, min_def, max_def];
       split_ifs <;> omega)
  · constructor <;>
      (simp only [clampTop, Config.MAX_TOP_STOCKS, Config.MAX_TOP_CRYPTOS, min_def, max_def];
       split_ifs <;> omega)

/-- C10 witness: concrete instantiation of `C10_clamping` at an
out-of-range negative and an out-of-range large request. -/
theorem C10_witness :
    ((-5 : ℤ) ≤ 0) ∧ clampTop (-5) Config.MAX_TOP_STOCKS = 1
    ∧ ((100 : ℤ) ≤ 250) ∧ clampTop 250 Config.MAX_TOP_CRYPTOS = 100
    ∧ get_or_fetch_popular_stocks (-5) 0 .exn ⟨[], 0⟩
        = get_or_fetch_popular_stocks (clampTop (-5) Config.MAX_TOP_STOCKS) 0 .exn ⟨[], 0⟩ :=
  ⟨by decide, (C10_clamping.2.2.1 (-5) (by decide)).1, by decide,
   (C10_clamping.2.2.2 250 (by decide)).2, C10_clamping.1 (-5) 0 .exn ⟨[], 0⟩⟩

/-! ## Historical-series lemmas -/

/-- `pairPoints` yields exactly one point per price pair. -/
theorem pairPoints_length (ps vols : List (ℚ × ℚ)) :
    (pairPoints ps vols).length = ps.length := by
  induction ps generalizing vols with
  | nil => rfl
  | cons p ps ih => simp [pairPoints, ih]

/-- The volume carried by the `i`-th normalized point: the `i`-th volume
entry when the volume array is long enough, `0` otherwise. -/
theorem pairPoints_volume (ps vols : List (ℚ × ℚ)) (i : ℕ) (d : CryptoHistPoint)
    (h : i < ps.length) :
    ((pairPoints ps vols).getD i d).volume
      = if i < vols.length then pointVolume (vols.getD i (0, 0)).2 else 0 := by
  induction ps generalizing vols i with
  | nil => exact absurd h (by simp)
  | cons p ps ih =>
    cases i with
    | zero =>
      cases vols with
      | nil => simp [pairPoints, cryptoHistPoint, pointVolume]
      | cons v vs => simp [pairPoints, cryptoHistPoint]
    | succ n =>
      have hn : n < ps.length := by simpa using h
      cases vols with
      | nil => simpa [pairPoints] using ih [] n hn
      | cons v vs => simpa [pairPoints, Nat.succ_lt_succ_iff] using ih vs n hn

/-- C4: the claim states that a historical-series request whose upstream
result contains zero data points returns `None`, never a series whose data
field is an empty list.  FALSE for crypto: a present (truthy) market-chart
response with zero price points yields a series object with `data = []`,
not `None`. -/
theorem C4_counterexample :
    crypto_get_historical_data "bitcoin" "30" (some { prices := [], total_volumes := [] })
      = some { data := [], metadata := { id := "bitcoin", days := "30", currency := "USD" } } :=
  rfl

/-- C4 (amended): for equities an empty upstream frame yields `None` and a
returned series never has empty data; for crypto, `None` is returned exactly
when the upstream response is absent or falsy, while a present response with
zero price points yields a series whose data list is empty (its length
always equals the price-array length). -/
theorem C4_empty_series :
    (∀ (symbol period interval : String) (ohlc : Bool) (currency : String),
      stock_get_historical_data symbol period interval ohlc [] currency = none)
    ∧ (∀ (symbol period interval : String) (ohlc : Bool) (bars : List EquityBar)
        (currency : String) (ser : EquitySeries),
      stock_get_historical_data symbol period interval ohlc bars currency = some ser →
        ser.data ≠ [])
    ∧ (∀ id days : String, crypto_get_historical_data id days none = none)
    ∧ (∀ (id days : String) (mc : MarketChart) (ser : CryptoHistSeries),
      crypto_get_historical_data id days (some mc) = some ser →
        ser.data.length = mc.prices.length) := by
  refine ⟨fun symbol period interval ohlc currency => rfl,
    fun symbol period interval ohlc bars currency ser h => ?_,
    fun id days => rfl,
    fun id days mc ser h => ?_⟩
  · by_cases hb : bars = []
    · subst hb
      exact absurd h (by simp [stock_get_historical_data])
    · unfold stock_get_historical_data at h
      rw [if_neg hb] at h
      have h' := Option.some.inj h
      intro hnil
      rw [← h'] at hnil
      exact hb (by simpa using hnil)
  · unfold crypto_get_historical_data at h
    have h' := Option.some.inj h
    rw [← h']
    exact pairPoints_length mc.prices mc.total_volumes

/-- Sample equity history bar. -/
def ebar1 : EquityBar := { dt := "2024-01-02", close := some 5, volume := some 100 }

/-- C4 witness: concrete instantiations of `C4_empty_series` on a one-bar
equity frame and a one-point crypto chart. -/
theorem C4_witness :
    stock_get_historical_data "ibm" "1mo" "1d" false [ebar1] "USD"
      = some { data := [equityPoint false ebar1],
               metadata := { symbol := pyUpper "ibm", period := "1mo", interval := "1d",
                             currency := "USD", ohlc := false } }
    ∧ ({ data := [equityPoint false ebar1],
         metadata := { symbol := pyUpper "ibm", period := "1mo", interval := "1d",
                       currency := "USD", ohlc := false } } : EquitySeries).data ≠ []
    ∧ crypto_get_historical_data "eth" "7" (some { prices := [(1, 2)], total_volumes := [] })
      = some { data := [cryptoHistPoint (1, 2) none],
               metadata := { id := "eth", days := "7", currency := "USD" } }
    ∧ ({ data := [cryptoHistPoint (1, 2) none],
         metadata := { id := "eth", days := "7", currency := "USD" } } : CryptoHistSeries).data.length
        = ([((1 : ℚ), (2 : ℚ))] : List (ℚ × ℚ)).length :=
  ⟨rfl,
   C4_empty_series.2.1 "ibm" "1mo" "1d" false [ebar1] "USD" _ rfl,
   rfl,
   C4_empty_series.2.2.2 "eth" "7" { prices := [(1, 2)], total_volumes := [] } _ rfl⟩

/-- Concrete market chart with 5 price points and 3 volume points. -/
def mcScenario : MarketChart :=
  { prices := [(1, 10), (2, 20), (3, 30), (4, 40), (5, 50)]
    total_volumes := [(1, 10), (2, 20), (3, 30)] }

/-- C8: for every crypto history normalization over a price array of length
`P` and a volume array of length `V`, the normalized series has exactly `P`
points; for `i < V` the `i`-th point carries the `i`-th volume entry (as the
integer `int(volume) if volume else 0`), and for `V ≤ i < P` it carries
volume `0`; in particular 5 prices with 3 volumes yield 5 points whose
volumes are the 3 real volumes followed by two zeros. -/
theorem C8_positional_pairing :
    (∀ (id days : String) (mc : MarketChart) (ser : CryptoHistSeries),
      crypto_get_historical_data id days (some mc) = some ser →
        ser.data.length = mc.prices.length
        ∧ (∀ i : ℕ, i < mc.prices.length → i < mc.total_volumes.length →
            (ser.data.getD i ⟨0, 0, 0⟩).volume
              = pointVolume (mc.total_volumes.getD i (0, 0)).2)
        ∧ (∀ i : ℕ, i < mc.prices.length → mc.total_volumes.length ≤ i →
            (ser.data.getD i ⟨0, 0, 0⟩).volume = 0))
    ∧ ((crypto_get_historical_data "x" "1" (some mcScenario)).map
        (fun s => s.data.map (fun pt => pt.volume)) = some [10, 20, 30, 0, 0]) := by
  constructor
  · intro id days mc ser h
    unfold crypto_get_historical_data at h
    have h' := Option.some.inj h
    rw [← h']
    refine ⟨pairPoints_length mc.prices mc.total_volumes, fun i hp hv => ?_, fun i hp hv => ?_⟩
    · rw [pairPoints_volume mc.prices mc.total_volumes i _ hp, if_pos hv]
    · rw [pairPoints_volume mc.prices mc.total_volumes i _ hp, if_neg (not_lt.mpr hv)]
  · with_unfolding_all decide

/-- C8 witness: concrete instantiation of `C8_positional_pairing` on the
5-price/3-volume chart at index 1. -/
theorem C8_witness :
    crypto_get_historical_data "x" "1" (some mcScenario)
      = some { data := pairPoints mcScenario.prices mcScenario.total_volumes,
               metadata := { id := "x", days := "1", currency := "USD" } }
    ∧ (1 : ℕ) < mcScenario.prices.length ∧ (1 : ℕ) < mcScenario.total_volumes.length
    ∧ (({ data := pairPoints mcScenario.prices mcScenario.total_volumes,
          metadata := { id := "x", days := "1", currency := "USD" } } : CryptoHistSeries).data.getD 1
          ⟨0, 0, 0⟩).volume = pointVolume (mcScenario.total_volumes.getD 1 (0, 0)).2 :=
  ⟨rfl, by decide, by decide,
   (C8_positional_pairing.1 "x" "1" mcScenario _ rfl).2.1 1 (by decide) (by decide)⟩

/-- C9: for every crypto-by-symbol lookup, an empty search result list
yields `None`; otherwise, when some search result's symbol matches the
query case-insensitively, the detail fetch uses the first such match's id
(`List.find?` returns the first satisfying element); and when no result
matches exactly, the detail fetch uses the first search result's id as a
best-effort match. -/
theorem C9_symbol_lookup :
    ∀ (detailResponse : Option String → Option CoinDetailRaw)
      (searchFetch : Option (List RawSearchCoin)) (symbol : String),
      (search_crypto searchFetch = [] →
        get_crypto_by_symbol detailResponse searchFetch symbol = none)
      ∧ (∀ (first : SearchResult) (rest : List SearchResult),
          search_crypto searchFetch = first :: rest →
          (∀ r : SearchResult,
            (first :: rest).find? (fun r => pyUpper r.symbol == pyUpper symbol) = some r →
            get_crypto_by_symbol detailResponse searchFetch symbol
              = get_crypto_data (detailResponse r.id))
          ∧ ((first :: rest).find? (fun r => pyUpper r.symbol == pyUpper symbol) = none →
            get_crypto_by_symbol detailResponse searchFetch symbol
              = get_crypto_data (detailResponse first.id))) := by
  intro dr sf sym
  refine ⟨fun h => ?_, fun first rest h => ⟨fun r hf => ?_, fun hf => ?_⟩⟩
  · simp only [get_crypto_by_symbol]
    rw [h]
  · simp only [get_crypto_by_symbol]
    rw [h, hf]
  · simp only [get_crypto_by_symbol]
    rw [h, hf]

/-- Sample `/search` payload for the lookup witness. -/
def searchFetchW : Option (List RawSearchCoin) :=
  some [{ id := some "dogecoin", symbol := some "doge" },
        { id := some "ethereum", symbol := some "eth" }]

/-- Normalized first search result of `searchFetchW`. -/
def srDoge : SearchResult := { id := some "dogecoin", symbol := "DOGE" }

/-- Normalized second search result of `searchFetchW`. -/
def srEth : SearchResult := { id := some "ethereum", symbol := "ETH" }

/-- Sample `/coins/ethereum` payload. -/
def detailW : CoinDetailRaw :=
  { id := some "ethereum", symbol := some "eth", current_price_usd := some 3000 }

/-- Detail-fetch oracle answering only for the id `"ethereum"`. -/
def drW : Option String → Option CoinDetailRaw :=
  fun id => if id = some "ethereum" then some detailW else none

/-- C9 witness: concrete instantiation of `C9_symbol_lookup` where the
exact case-insensitive match sits in second position. -/
theorem C9_witness :
    search_crypto searchFetchW = [srDoge, srEth]
    ∧ ([srDoge, srEth] : List SearchResult).find?
        (fun r => pyUpper r.symbol == pyUpper "eth") = some srEth
    ∧ get_crypto_by_symbol drW searchFetchW "eth" = get_crypto_data (drW srEth.id) :=
  ⟨by decide, by decide,
   ((C9_symbol_lookup drW searchFetchW "eth").2 srDoge [srEth] (by decide)).1 srEth (by decide)⟩

/-! ## Rounding lemmas and the equity normalizer -/

/-- `roundHalfEven` is the identity on integers. -/
theorem roundHalfEven_intCast (m : ℤ) : roundHalfEven (m : ℚ) = m := by
  simp only [roundHalfEven, Int.floor_intCast, sub_self]
  norm_num

/-- `pyRound` fixes every value already having at most `nd` decimals. -/
theorem pyRound_eq_self (x : ℚ) (nd : ℕ) (h : hasAtMostDecimals x nd) :
    pyRound x nd = x := by
  unfold hasAtMostDecimals at h
  have hx : ((x * 10 ^ nd).num : ℚ) = x * 10 ^ nd := Rat.coe_int_num_of_den_eq_one h
  unfold pyRound
  rw [← hx, roundHalfEven_intCast, hx, mul_div_cancel_right₀]
  exact pow_ne_zero _ (by norm_num)

/-- `pyRound2` fixes every value already having at most two decimals. -/
theorem pyRound2_eq_self (x : ℚ) (h : hasAtMostDecimals x 2) : pyRound2 x = x :=
  pyRound_eq_self x 2 h

/-- `pyRound2` is the identity on integers. -/
theorem pyRound2_intCast (n : ℤ) : pyRound2 (n : ℚ) = n :=
  pyRound_eq_self _ _ (intCast_hasAtMostDecimals n 2)

/-- `round(0, 2) = 0`. -/
theorem pyRound2_zero : pyRound2 0 = 0 := by
  have h := pyRound2_intCast 0
  simpa using h

/-- Evaluation of `get_stock_data` when the effective current price is a
truthy `p`: the basic record, with every field spelled out. -/
theorem get_stock_data_some (symbol : String) (info : StockInfo) (p : ℚ)
    (hp : pyOrQ info.regularMarketPrice info.currentPrice = some p) (hp0 : p ≠ 0) :
    get_stock_data symbol info = some
      { symbol := symbol
        name := pyOrS info.longName symbol
        price := pyRound2 p
        change := pyRound2 (p - info.previousClose.getD p)
        changePercent := pyRound2
          (if info.previousClose.getD p ≠ 0 then
            (p - info.previousClose.getD p) / info.previousClose.getD p * 100 else 0)
        volume := info.volume.getD 0
        marketCap := info.marketCap.getD 0
        market := (classifyMarket (pyUpper (info.exchange.getD "")) info.currency).1
        currency := (classifyMarket (pyUpper (info.exchange.getD "")) info.currency).2
        dayHigh := pyRound2 (info.dayHigh.getD 0)
        dayLow := pyRound2 (info.dayLow.getD 0)
        fiftyTwoWeekHigh := pyRound2 (info.fiftyTwoWeekHigh.getD 0)
        fiftyTwoWeekLow := pyRound2 (info.fiftyTwoWeekLow.getD 0) } := by
  unfold get_stock_data
  rw [hp]
  show (if p = 0 then none else _) = _
  rw [if_neg hp0]

/-- C7: for every equity record returned by `get_stock_data`, the
`changePercent` field equals `change / previousClose * 100` rounded to 2
decimals when `previousClose` is present and nonzero, and equals `0` when
`previousClose` is zero or absent (the guarded conditional makes the
division-by-zero branch unreachable, and over the exact rational embedding
the result is always a well-defined rational, never an error value); in
particular `previousClose=100` with current price `110` yields
`change = 10` and `changePercent = 10`. -/
theorem C7_change_percent :
    (∀ (symbol : String) (info : StockInfo) (p : ℚ) (rec : StockRecord),
      pyOrQ info.regularMarketPrice info.currentPrice = some p →
      get_stock_data symbol info = some rec →
        (∀ prev : ℚ, info.previousClose = some prev → prev ≠ 0 →
            rec.changePercent = pyRound2 ((p - prev) / prev * 100))
        ∧ (info.previousClose = some 0 → rec.changePercent = 0)
        ∧ (info.previousClose = none → rec.changePercent = 0)
        ∧ rec.change = pyRound2 (p - info.previousClose.getD p))
    ∧ ((get_stock_data "ACME" { regularMarketPrice := some 110, previousClose := some 100 }).map
        StockRecord.change = some 10
      ∧ (get_stock_data "ACME" { regularMarketPrice := some 110, previousClose := some 100 }).map
        StockRecord.changePercent = some 10) := by
  constructor
  · intro symbol info p rec hp hrec
    by_cases hp0 : p = 0
    · subst hp0
      unfold get_stock_data at hrec
      rw [hp] at hrec
      simp at hrec
    · rw [get_stock_data_some symbol info p hp hp0] at hrec
      have h' : rec = _ := (Option.some.inj hrec).symm
      subst h'
      refine ⟨fun prev hprev hprev0 => ?_, fun h0 => ?_, fun hnone => ?_, rfl⟩
      · show pyRound2 (if info.previousClose.getD p ≠ 0 then
          (p - info.previousClose.getD p) / info.previousClose.getD p * 100 else 0)
            = pyRound2 ((p - prev) / prev * 100)
        rw [hprev]
        simp only [Option.getD_some]
        rw [if_pos hprev0]
      · show pyRound2 (if info.previousClose.getD p ≠ 0 then
          (p - info.previousClose.getD p) / info.previousClose.getD p * 100 else 0) = 0
        rw [h0]
        simp [pyRound2_zero]
      · show pyRound2 (if info.previousClose.getD p ≠ 0 then
          (p - info.previousClose.getD p) / info.previousClose.getD p * 100 else 0) = 0
        rw [hnone]
        simp only [Option.getD_none]
        rw [if_pos hp0]
        simp [pyRound2_zero]
  · have h := get_stock_data_some "ACME"
      ({ regularMarketPrice := some 110, previousClose := some 100 } : StockInfo) 110
      rfl (by norm_num)
    rw [h]
    constructor
    · simp only [Option.map_some']
      congr 1
      show pyRound2 (110 - ((some (100 : ℚ)).getD 110)) = 10
      norm_num
      exact_mod_cast pyRound2_intCast 10
    · simp only [Option.map_some']
      congr 1
      show pyRound2 (if ((some (100 : ℚ)).getD 110) ≠ 0 then
        (110 - (some (100 : ℚ)).getD 110) / (some (100 : ℚ)).getD 110 * 100 else 0) = 10
      norm_num
      exact_mod_cast pyRound2_intCast 10

/-- Sample `ticker.info` payload for the equity witnesses. -/
def infoW : StockInfo := { currentPrice := some 200, previousClose := some 160 }

/-- The record `get_stock_data "XYZ" infoW` produces. -/
def recW : StockRecord :=
  { symbol := "XYZ"
    name := pyOrS infoW.longName "XYZ"
    price := pyRound2 200
    change := pyRound2 (200 - infoW.previousClose.getD 200)
    changePercent := pyRound2 (if infoW.previousClose.getD 200 ≠ 0 then
      (200 - infoW.previousClose.getD 200) / infoW.previousClose.getD 200 * 100 else 0)
    volume := infoW.volume.getD 0
    marketCap := infoW.marketCap.getD 0
    market := (classifyMarket (pyUpper (infoW.exchange.getD "")) infoW.currency).1
    currency := (classifyMarket (pyUpper (infoW.exchange.getD "")) infoW.currency).2
    dayHigh := pyRound2 (infoW.dayHigh.getD 0)
    dayLow := pyRound2 (infoW.dayLow.getD 0)
    fiftyTwoWeekHigh := pyRound2 (infoW.fiftyTwoWeekHigh.getD 0)
    fiftyTwoWeekLow := pyRound2 (infoW.fiftyTwoWeekLow.getD 0) }

/-- C7 witness: concrete instantiation of `C7_change_percent` at a record
with `previousClose = 160` and current price `200`. -/
theorem C7_witness :
    pyOrQ infoW.regularMarketPrice infoW.currentPrice = some 200
    ∧ get_stock_data "XYZ" infoW = some recW
    ∧ infoW.previousClose = some 160
    ∧ (160 : ℚ) ≠ 0
    ∧ recW.changePercent = pyRound2 ((200 - 160) / 160 * 100) :=
  ⟨rfl, get_stock_data_some "XYZ" infoW 200 rfl (by norm_num), rfl, by norm_num,
   (C7_change_percent.1 "XYZ" infoW 200 recW rfl
      (get_stock_data_some "XYZ" infoW 200 rfl (by norm_num))).1 160 rfl (by norm_num)⟩

/-- C3: the claim states that every numeric monetary field of every
normalized asset record is rounded to exactly 2 decimal places.  FALSE for
crypto records: `get_top_cryptos` passes `current_price` through unrounded,
so a coin whose upstream price is `12.3456` yields a record whose `price`
field has four decimal places. -/
theorem C3_counterexample :
    (normalizeCoin { current_price := some (123456 / 10000) }).price = 123456 / 10000
    ∧ ¬ hasAtMostDecimals ((normalizeCoin { current_price := some (123456 / 10000) }).price) 2 :=
  ⟨rfl, by with_unfolding_all decide⟩

/-- C3 (amended): rounding to 2 decimals holds for all monetary fields of
equity records (price, change, changePercent, day and 52-week extremes) and
for the change/percentage fields of crypto records (both the top-list and
the detail normalizer), while the crypto `price` field is passed through
from upstream unrounded; dividend per-share amounts are rounded to 4
decimal places. -/
theorem C3_rounding :
    (∀ (symbol : String) (info : StockInfo) (rec : StockRecord),
      get_stock_data symbol info = some rec →
        hasAtMostDecimals rec.price 2 ∧ hasAtMostDecimals rec.change 2
        ∧ hasAtMostDecimals rec.changePercent 2 ∧ hasAtMostDecimals rec.dayHigh 2
        ∧ hasAtMostDecimals rec.dayLow 2 ∧ hasAtMostDecimals rec.fiftyTwoWeekHigh 2
        ∧ hasAtMostDecimals rec.fiftyTwoWeekLow 2)
    ∧ (∀ coin : RawCoin,
        hasAtMostDecimals (normalizeCoin coin).change 2
        ∧ hasAtMostDecimals (normalizeCoin coin).changePercent 2
        ∧ hasAtMostDecimals (normalizeCoin coin).changePercent7d 2
        ∧ hasAtMostDecimals (normalizeCoin coin).athChangePercent 2
        ∧ (normalizeCoin coin).price = coin.current_price.getD 0)
    ∧ (∀ (d : CoinDetailRaw) (rec : CryptoBasicRec),
        get_crypto_data (some d) = some rec →
          hasAtMostDecimals rec.change 2 ∧ hasAtMostDecimals rec.changePercent 2
          ∧ rec.price = d.current_price_usd.getD 0)
    ∧ (∀ (date : String) (amount : ℚ) (year : ℤ) (month : ℕ),
        hasAtMostDecimals (dividend_entry date amount year month).amount 4) := by
  refine ⟨fun symbol info rec hrec => ?_, fun coin => ?_, fun d rec hrec => ?_,
    fun date amount year month => pyRound_hasAtMostDecimals amount 4⟩
  · rcases hpq : pyOrQ info.regularMarketPrice info.currentPrice with _ | p
    · unfold get_stock_data at hrec
      rw [hpq] at hrec
      simp at hrec
    · by_cases hp0 : p = 0
      · subst hp0
        unfold get_stock_data at hrec
        rw [hpq] at hrec
        simp at hrec
      · rw [get_stock_data_some symbol info p hpq hp0] at hrec
        have h' : rec = _ := (Option.some.inj hrec).symm
        subst h'
        exact ⟨pyRound_hasAtMostDecimals _ 2, pyRound_hasAtMostDecimals _ 2,
          pyRound_hasAtMostDecimals _ 2, pyRound_hasAtMostDecimals _ 2,
          pyRound_hasAtMostDecimals _ 2, pyRound_hasAtMostDecimals _ 2,
          pyRound_hasAtMostDecimals _ 2⟩
  · exact ⟨pyRound_hasAtMostDecimals _ 2, pyRound_hasAtMostDecimals _ 2,
      pyRound_hasAtMostDecimals _ 2, pyRound_hasAtMostDecimals _ 2, rfl⟩
  · have h' : rec = _ := (Option.some.inj hrec).symm
    subst h'
    exact ⟨pyRound_hasAtMostDecimals _ 2, pyRound_hasAtMostDecimals _ 2, rfl⟩

/-- The record `get_crypto_data (some detailW)` produces. -/
def recDW : CryptoBasicRec :=
  { id := some "ethereum", symbol := pyUpper "eth", name := none, price := 3000
    change := pyRound2 0, changePercent := pyRound2 0, marketCap := 0, volume := 0
    image := none, rank := none, high24h := 0, low24h := 0 }

/-- C3 witness: concrete instantiations of `C3_rounding` on the equity
record, the crypto detail record, and a dividend entry. -/
theorem C3_witness :
    get_stock_data "XYZ" infoW = some recW
    ∧ hasAtMostDecimals recW.price 2
    ∧ get_crypto_data (some detailW) = some recDW
    ∧ hasAtMostDecimals recDW.changePercent 2
    ∧ hasAtMostDecimals (dividend_entry "2024-03-15" (1 / 3) 2024 3).amount 4 :=
  ⟨get_stock_data_some "XYZ" infoW 200 rfl (by norm_num),
   (C3_rounding.1 "XYZ" infoW recW (get_stock_data_some "XYZ" infoW 200 rfl (by norm_num))).1,
   rfl,
   (C3_rounding.2.2.1 detailW recDW rfl).2.1,
   C3_rounding.2.2.2 "2024-03-15" (1 / 3) 2024 3⟩
